import Mathlib

/-!
Verification of the ping-viewer-next recording subsystem.

This file gives a shallow embedding of the recording manager actor
(src/device/recording/mod.rs), its recording worker loop, the vehicle
telemetry bridge (src/vehicle/mod.rs), and the recordings file endpoints
(src/server/protocols/v1/rest/recording.rs), together with theorems about
their behaviour.

Modelling conventions:
- file-system paths are lists of components, each component a list of
  characters; canonicalization is modelled as lexical normalization of
  the "." and ".." components (symbolic links and existence checks of the
  real canonicalize are abstracted away);
- machine integers are Nat or Int; f32/f64 values are exact rationals
  (Rat), so unit conversions are exact divisions;
- opaque external handles (MCAP writer, device handler) are Unit values;
- fallible I/O steps are injected as explicit outcome parameters, and the
  actor operations become pure functions from registry state to an
  outcome record collecting the new state and every observable effect.
-/

namespace PingViewerNext

/-- Characters of a string literal, used to build concrete path components. -/
def str (s : String) : List Char := s.data

/-- One path component, as the Rust Path component iterator yields them. -/
abbrev Component := List Char

/-- A file-system path: its components from the file-system root. -/
abbrev FsPath := List Component

/-- Splits a character sequence at each slash, keeping empty pieces. -/
def splitSlash : List Char → List Component
  | [] => [[]]
  | c :: cs =>
      if c = '/' then [] :: splitSlash cs
      else
        match splitSlash cs with
        | [] => [[c]]
        | p :: r => (c :: p) :: r

/-- Path components of a character sequence: split at slashes and drop the
empty pieces, as the Rust component iterator does. -/
def splitPath (s : List Char) : List Component :=
  (splitSlash s).filter (fun c => decide (c ≠ []))

/-- Whether a textual path is absolute (starts with a slash). -/
def isAbsolutePath (s : List Char) : Bool :=
  s.head? = some '/'

/-- Model of Rust Path::join: an absolute right operand replaces the base. -/
def joinPath (base : FsPath) (name : List Char) : FsPath :=
  if isAbsolutePath name then splitPath name else base ++ splitPath name

/-- Stack-based resolution of "." and ".." components; the accumulated stack
holds the resolved components in reverse. A ".." at the root stays at the
root, as canonicalize does. -/
def normStack : FsPath → FsPath → FsPath
  | stack, [] => stack
  | stack, c :: rest =>
      if c = str "." then normStack stack rest
      else if c = str ".." then normStack stack.tail rest
      else normStack (c :: stack) rest

/-- Lexical normalization of a path: model of canonicalize with symbolic
links and existence checks abstracted away. -/
def normalize (p : FsPath) : FsPath :=
  (normStack [] p).reverse

theorem normStack_append (xs ys : FsPath) :
    ∀ stack, normStack stack (xs ++ ys) = normStack (normStack stack xs) ys := by
  induction xs with
  | nil => intro stack; rfl
  | cons c rest ih =>
      intro stack
      by_cases hdot : c = str "."
      · simp [normStack, hdot, ih]
      · by_cases hdd : c = str ".."
        · simp [normStack, hdot, hdd, ih, show str ".." ≠ str "." from by decide]
        · simp [normStack, hdot, hdd, ih]

/-- Appending one component that is neither "." nor ".." to a path appends it
to the normalized form. -/
theorem normalize_append_single (base : FsPath) (c : Component)
    (hdot : c ≠ str ".") (hdd : c ≠ str "..") :
    normalize (base ++ [c]) = normalize base ++ [c] := by
  unfold normalize
  rw [normStack_append base [c]]
  simp [normStack, hdot, hdd]

theorem splitSlash_no_slash (cs : List Char) (h : '/' ∉ cs) :
    splitSlash cs = [cs] := by
  induction cs with
  | nil => rfl
  | cons c rest ih =>
      simp only [List.mem_cons, not_or] at h
      have hc : ¬ (c = '/') := fun hcc => h.1 hcc.symm
      simp [splitSlash, hc, ih h.2]

/-- A nonempty slash-free character sequence is a single path component. -/
theorem splitPath_single (cs : List Char) (h : '/' ∉ cs) (hne : cs ≠ []) :
    splitPath cs = [cs] := by
  unfold splitPath
  rw [splitSlash_no_slash cs h]
  simp [hne]

/-- Hexadecimal digit character for a value below 16. -/
def hexDigitN : Nat → Char
  | 0 => '0' | 1 => '1' | 2 => '2' | 3 => '3' | 4 => '4' | 5 => '5'
  | 6 => '6' | 7 => '7' | 8 => '8' | 9 => '9' | 10 => 'a' | 11 => 'b'
  | 12 => 'c' | 13 => 'd' | 14 => 'e' | 15 => 'f'
  | _ => '0'

/-- Hexadecimal digit of the low four bits of a value. -/
def hexDigit (n : Nat) : Char :=
  hexDigitN (n % 16)

/-- Two-digit lowercase hexadecimal rendering of one byte. -/
def byteHex (b : Nat) : List Char :=
  [hexDigit (b / 16), hexDigit b]

/-- Hexadecimal rendering of a byte sequence. -/
def bytesHex (bs : List Nat) : List Char :=
  bs.flatMap byteHex

/-- Opaque 128-bit device identifier (uuid::Uuid), as its 16 bytes. -/
structure Uuid where
  bytes : List Nat
  deriving Repr, DecidableEq

/-- Hyphenated-hexadecimal textual form of a Uuid, as the uuid crate
Display implementation renders it (8-4-4-4-12 hex digits). -/
def uuidChars (u : Uuid) : List Char :=
  bytesHex (u.bytes.take 4) ++ '-' ::
    (bytesHex ((u.bytes.drop 4).take 2) ++ '-' ::
      (bytesHex ((u.bytes.drop 6).take 2) ++ '-' ::
        (bytesHex ((u.bytes.drop 8).take 2) ++ '-' ::
          bytesHex (u.bytes.drop 10))))

/-- UTC wall-clock time, as the fields the chrono format string reads. -/
structure UtcTime where
  year : Nat
  month : Nat
  day : Nat
  hour : Nat
  minute : Nat
  second : Nat
  deriving Repr, DecidableEq

/-- Decimal digit character for a value below 10. -/
def decDigitN : Nat → Char
  | 0 => '0' | 1 => '1' | 2 => '2' | 3 => '3' | 4 => '4'
  | 5 => '5' | 6 => '6' | 7 => '7' | 8 => '8' | 9 => '9'
  | _ => '0'

/-- Decimal digit of a value modulo 10. -/
def decDigit (n : Nat) : Char :=
  decDigitN (n % 10)

/-- Fixed-width zero-padded decimal rendering of a value. -/
def padDigits (width n : Nat) : List Char :=
  (List.range width).map (fun i => decDigit (n / 10 ^ (width - 1 - i)))

/-- Rendering of the chrono format string "%Y%m%d_%H%M%S". -/
def formatTimestamp (t : UtcTime) : List Char :=
  padDigits 4 t.year ++ padDigits 2 t.month ++ padDigits 2 t.day ++ '_' ::
    (padDigits 2 t.hour ++ padDigits 2 t.minute ++ padDigits 2 t.second)

/-- The recording file name composed by start_recording
(src/device/recording/mod.rs lines 179 to 183):
device_{uuid}_{%Y%m%d_%H%M%S}.mcap. -/
def logFileName (device_id : Uuid) (timestamp : UtcTime) : List Char :=
  str "device_" ++ uuidChars device_id ++ '_' ::
    (formatTimestamp timestamp ++ str ".mcap")

theorem hexDigitN_ne_slash (n : Nat) : hexDigitN n ≠ '/' := by
  unfold hexDigitN
  split <;> decide

theorem decDigitN_ne_slash (n : Nat) : decDigitN n ≠ '/' := by
  unfold decDigitN
  split <;> decide

theorem mem_bytesHex_slash (bs : List Nat) : ('/' ∈ bytesHex bs) ↔ False := by
  simp only [iff_false]
  intro hmem
  simp only [bytesHex, List.mem_flatMap, byteHex, List.mem_cons,
    List.not_mem_nil, or_false] at hmem
  obtain ⟨b, _, h⟩ := hmem
  rcases h with h | h
  · exact hexDigitN_ne_slash _ h.symm
  · exact hexDigitN_ne_slash _ h.symm

theorem mem_padDigits_slash (w n : Nat) : ('/' ∈ padDigits w n) ↔ False := by
  simp only [iff_false]
  intro hmem
  simp only [padDigits, List.mem_map] at hmem
  obtain ⟨i, _, h⟩ := hmem
  exact decDigitN_ne_slash _ h

theorem uuidChars_no_slash (u : Uuid) : '/' ∉ uuidChars u := by
  simp [uuidChars, List.mem_append, List.mem_cons, mem_bytesHex_slash,
    show ('/' : Char) ≠ '-' from by decide]

theorem formatTimestamp_no_slash (t : UtcTime) : '/' ∉ formatTimestamp t := by
  simp [formatTimestamp, List.mem_append, List.mem_cons, mem_padDigits_slash,
    show ('/' : Char) ≠ '_' from by decide]

theorem logFileName_no_slash (device_id : Uuid) (timestamp : UtcTime) :
    '/' ∉ logFileName device_id timestamp := by
  simp only [logFileName, str, uuidChars, formatTimestamp, List.mem_append,
    List.mem_cons, List.not_mem_nil, mem_bytesHex_slash, mem_padDigits_slash,
    or_false, false_or]
  decide

theorem logFileName_starts_with_d (device_id : Uuid) (timestamp : UtcTime) :
    ∃ rest, logFileName device_id timestamp = 'd' :: rest := by
  exact ⟨_, rfl⟩

/-- Errors of the secure path helper: the three refusal responses of
secure_file_path (src/server/protocols/v1/rest/recording.rs lines 120
to 135). The two canonicalize-failure responses are collapsed into the
lexical model; escaping paths produce the Forbidden response. -/
inductive FileAccessError where
  | internalError
  | notFound
  | forbidden
  deriving Repr, DecidableEq

/-- Model of secure_file_path: join the requested name onto the base
directory, canonicalize both, and refuse unless the canonical file path
stays under the canonical base. -/
def secure_file_path (base : FsPath) (file_name : List Char) :
    Except FileAccessError FsPath :=
  let file_path := joinPath base file_name
  let canonical_base := normalize base
  let canonical_file := normalize file_path
  if canonical_base.isPrefixOf canonical_file then .ok canonical_file
  else .error .forbidden

/-- Model of the download endpoint, reduced to its file-system access: the
canonical path of the file it serves, or none when the request is refused
before any read (existence checks abstracted away). -/
def download_mcap_file (base : FsPath) (file_name : List Char) : Option FsPath :=
  match secure_file_path base file_name with
  | .ok p => some p
  | .error _ => none

/-- Model of the delete endpoint, reduced to its file-system access: the
canonical path of the file it removes, or none when the request is refused
before any deletion. -/
def delete_mcap_file (base : FsPath) (file_name : List Char) : Option FsPath :=
  match secure_file_path base file_name with
  | .ok p => some p
  | .error _ => none

/-- Device kind, as the recording session stores it. The declaring enum
DeviceSelection lives in src/device/manager.rs, outside the provided
sources; the recording module only copies the value through, and the spec
lists the kinds Ping1D, Ping360, Common. -/
inductive DeviceSelection where
  | ping1D
  | ping360
  | common
  deriving Repr, DecidableEq

/-- Distinct messages the recording module wraps in ManagerError::Other
(src/device/recording/mod.rs lines 166, 175, 195 and 232, 202, 250, 257). -/
inductive OtherMsg where
  | alreadyRecording (device_id : Uuid)
  | createDirFailed
  | invalidDeviceHandler
  | createMcapFailed
  | noRecordingSession (device_id : Uuid)
  | closeWriterFailed
  deriving Repr, DecidableEq

/-- Errors returned by the recording manager. The declaring enum
ManagerError lives in src/device/manager.rs, outside the provided
sources; the recording module constructs its Other variant with the
messages above and propagates upstream device-manager errors opaquely. -/
inductive ManagerError where
  | other (msg : OtherMsg)
  | upstream
  deriving Repr, DecidableEq

deriving instance DecidableEq for Except

/-- Succeeded-or-not view of a manager result. -/
def isOkResult {α : Type} : Except ManagerError α → Bool
  | .ok _ => true
  | .error _ => false

/-- RecordingSession record (src/device/recording/mod.rs lines 29 to 36). -/
structure RecordingSession where
  device_id : Uuid
  file_path : FsPath
  is_active : Bool
  start_time : UtcTime
  device_type : DeviceSelection
  deriving Repr, DecidableEq

/-- SessionGuard (src/device/recording/mod.rs lines 38 to 41): the session
paired with the optional open MCAP writer handle (handle modelled as Unit). -/
structure SessionGuard where
  session : RecordingSession
  writer : Option Unit
  deriving Repr, DecidableEq

/-- The recording registry: association list from device id to guard,
modelling the HashMap of the RecordingManager. -/
abbrev Registry := List (Uuid × SessionGuard)

/-- Lookup in the recording registry. -/
def rlookup (reg : Registry) (d : Uuid) : Option SessionGuard :=
  match reg with
  | [] => none
  | (k, g) :: rest => if k = d then some g else rlookup rest d

/-- Removal from the recording registry. -/
def rremove (reg : Registry) (d : Uuid) : Registry :=
  reg.filter (fun p => decide (p.1 ≠ d))

/-- Insertion into the recording registry, replacing any previous entry,
as HashMap::insert does. -/
def rinsert (reg : Registry) (d : Uuid) (g : SessionGuard) : Registry :=
  (d, g) :: rremove reg d

/-- In-place mutation of an existing registry entry, as get_mut allows. -/
def rupdate : Registry → Uuid → SessionGuard → Registry
  | [], _, _ => []
  | (k, gk) :: rest, d, g =>
      (if k = d then (d, g) else (k, gk)) :: rupdate rest d g

/-- Outcome of a mailbox request forwarded to the device manager and
matched against the expected answer variant: the send can fail (err,
propagated by the question-mark operator), the answer can be of an
unexpected variant, or it carries the expected payload. -/
inductive UpstreamResult (α : Type) where
  | err
  | wrongVariant
  | ok (a : α)
  deriving Repr, DecidableEq

/-- Environment of one start_recording call: the outcomes of its fallible
steps and the wall-clock time it reads, injected explicitly. -/
structure StartEnv where
  createDirOk : Bool
  now : UtcTime
  infoResult : UpstreamResult DeviceSelection
  mcapOpenOk : Bool
  handlerResult : UpstreamResult Unit
  deriving Repr, DecidableEq

/-- Everything observable about one start_recording call: the registry it
leaves behind, the status broadcasts it emits, the log files it opens,
whether it spawns the recording worker, and its returned result. -/
structure StartOutcome where
  registry : Registry
  broadcasts : List RecordingSession
  opened : List FsPath
  spawned : Bool
  result : Except ManagerError RecordingSession
  deriving Repr, DecidableEq

/-- The session record built at start (src/device/recording/mod.rs lines
204 to 210). -/
def startSession (base : FsPath) (device_id : Uuid) (now : UtcTime)
    (device_type : DeviceSelection) : RecordingSession :=
  { device_id := device_id
    file_path := joinPath base (logFileName device_id now)
    is_active := true
    start_time := now
    device_type := device_type }

/-- Model of RecordingManager::start_recording (src/device/recording/mod.rs
lines 164 to 245), with the fallible steps injected through env. The
device-info answer is reduced to the device_type field that the call uses;
the panic on an empty device-info vector is not modelled. -/
def start_recording (base : FsPath) (env : StartEnv) (reg : Registry)
    (device_id : Uuid) : StartOutcome :=
  if (rlookup reg device_id).isSome then
    { registry := reg, broadcasts := [], opened := [], spawned := false
      result := .error (.other (.alreadyRecording device_id)) }
  else if !env.createDirOk then
    { registry := reg, broadcasts := [], opened := [], spawned := false
      result := .error (.other .createDirFailed) }
  else
    let timestamp := env.now
    let file_path := joinPath base (logFileName device_id timestamp)
    match env.infoResult with
    | .err =>
        { registry := reg, broadcasts := [], opened := [], spawned := false
          result := .error .upstream }
    | .wrongVariant =>
        { registry := reg, broadcasts := [], opened := [], spawned := false
          result := .error (.other .invalidDeviceHandler) }
    | .ok device_type =>
        if !env.mcapOpenOk then
          { registry := reg, broadcasts := [], opened := [], spawned := false
            result := .error (.other .createMcapFailed) }
        else
          let session := startSession base device_id timestamp device_type
          let reg1 := rinsert reg device_id { session := session, writer := some () }
          match env.handlerResult with
          | .err =>
              { registry := reg1, broadcasts := [session], opened := [file_path]
                spawned := false, result := .error .upstream }
          | .wrongVariant =>
              { registry := reg1, broadcasts := [session], opened := [file_path]
                spawned := false, result := .error (.other .invalidDeviceHandler) }
          | .ok _ =>
              { registry := reg1, broadcasts := [session], opened := [file_path]
                spawned := true, result := .ok session }

/-- Everything observable about one stop_recording call. -/
structure StopOutcome where
  registry : Registry
  broadcasts : List RecordingSession
  result : Except ManagerError RecordingSession
  deriving Repr, DecidableEq

/-- Model of RecordingManager::stop_recording (src/device/recording/mod.rs
lines 247 to 262): mark the entry inactive and take the writer under the
same registry lock; closing the taken writer can fail (closeOk injected). -/
def stop_recording (closeOk : Bool) (reg : Registry) (device_id : Uuid) :
    StopOutcome :=
  match rlookup reg device_id with
  | none =>
      { registry := reg, broadcasts := []
        result := .error (.other (.noRecordingSession device_id)) }
  | some g =>
      let stopped := { g.session with is_active := false }
      let reg1 := rupdate reg device_id { session := stopped, writer := none }
      match g.writer with
      | some _ =>
          if closeOk then
            { registry := reg1, broadcasts := [stopped], result := .ok stopped }
          else
            { registry := reg1, broadcasts := []
              result := .error (.other .closeWriterFailed) }
      | none =>
          { registry := reg1, broadcasts := [stopped], result := .ok stopped }

/-- Vehicle telemetry snapshot (src/vehicle/mod.rs lines 11 to 25). The
f32 and f64 fields are modelled as exact rationals. -/
structure VehicleData where
  roll : Rat
  pitch : Rat
  yaw : Rat
  alt : Rat
  lat : Rat
  lon : Rat
  deriving Repr, DecidableEq

/-- Ping360 AutoDeviceData message (external bluerobotics_ping codec),
with the fields the recording worker reads and writes; sample bytes are
naturals. -/
structure AutoDeviceDataStruct where
  mode : Nat
  gain_setting : Nat
  angle : Nat
  transmit_duration : Nat
  sample_period : Nat
  transmit_frequency : Nat
  start_angle : Nat
  stop_angle : Nat
  num_steps : Nat
  delay : Nat
  number_of_samples : Nat
  data_length : Nat
  data : List Nat
  deriving Repr, DecidableEq

/-- Ping360 DeviceData message (single-step transducer reply, external
codec), with the fields the synthesis copies. -/
structure DeviceDataStruct where
  mode : Nat
  gain_setting : Nat
  angle : Nat
  transmit_duration : Nat
  sample_period : Nat
  transmit_frequency : Nat
  number_of_samples : Nat
  data : List Nat
  deriving Repr, DecidableEq

/-- Ping1D Profile message; the worker logs it unchanged, so its fields
are kept opaque. -/
structure ProfileStruct where
  payload : List Nat
  deriving Repr, DecidableEq

/-- A broadcast frame after the try_from decoding attempts of the worker:
one of the three handled messages, or any other message kind (including
frames the codec cannot decode). -/
inductive ParsedFrame where
  | ping360AutoDeviceData (answer : AutoDeviceDataStruct)
  | ping360DeviceData (answer : DeviceDataStruct)
  | ping1dProfile (answer : ProfileStruct)
  | otherFrame
  deriving Repr, DecidableEq

/-- The AutoDeviceData record the worker synthesizes from a single-step
DeviceData reply (src/device/recording/mod.rs lines 342 to 356). -/
def synthAutoDeviceData (answer : DeviceDataStruct) : AutoDeviceDataStruct :=
  { mode := answer.mode
    gain_setting := answer.gain_setting
    angle := answer.angle
    transmit_duration := answer.transmit_duration
    sample_period := answer.sample_period
    transmit_frequency := answer.transmit_frequency
    start_angle := 0
    stop_angle := 399
    num_steps := 1
    delay := 0
    number_of_samples := answer.number_of_samples
    data_length := answer.number_of_samples
    data := answer.data }

/-- One record appended to an MCAP channel, tagged with the channel it
goes to and the wall-clock log time (nanoseconds, opaque). -/
inductive LogRecord where
  | ping360Record (answer : AutoDeviceDataStruct) (log_time : Nat)
  | ping1dRecord (answer : ProfileStruct) (log_time : Nat)
  | vehicleRecord (vehicle : VehicleData) (log_time : Nat)
  deriving Repr, DecidableEq

/-- Whether a record went to one of the two sonar channels. -/
def isSonarRecord : LogRecord → Bool
  | .ping360Record _ _ => true
  | .ping1dRecord _ _ => true
  | .vehicleRecord _ _ => false

/-- Log time carried by a record. -/
def recordTime : LogRecord → Nat
  | .ping360Record _ t => t
  | .ping1dRecord _ t => t
  | .vehicleRecord _ t => t

/-- Records the worker writes for one received frame (src/device/recording/
mod.rs lines 330 to 366): the timestamp is taken once at receipt; the
Ping360 and Ping1D branches produce at most one sonar record; afterwards,
whenever the shared vehicle snapshot is populated, it is logged with the
same timestamp. -/
def processFrame (vehicle_data : Option VehicleData) (msg : ParsedFrame)
    (timestamp : Nat) : List LogRecord :=
  (match msg with
    | .ping360AutoDeviceData answer => [.ping360Record answer timestamp]
    | .ping360DeviceData answer =>
        [.ping360Record (synthAutoDeviceData answer) timestamp]
    | .ping1dProfile answer => [.ping1dRecord answer timestamp]
    | .otherFrame => []) ++
  (match vehicle_data with
    | some vehicle => [.vehicleRecord vehicle timestamp]
    | none => [])

/-- One outcome of receiver.recv() in the worker loop: a frame (with the
wall-clock timestamp taken at receipt), the lagged error the broadcast
channel reports after dropping the oldest frames of a slow subscriber, or
the closed error. -/
inductive RecvEvent where
  | okFrame (msg : ParsedFrame) (timestamp : Nat)
  | lagged (skipped : Nat)
  | closed
  deriving Repr, DecidableEq

/-- The is_active check at the top of the worker loop (src/device/
recording/mod.rs lines 322 to 328): absent entries read as inactive. -/
def isActiveIn (reg : Registry) (d : Uuid) : Bool :=
  match rlookup reg d with
  | some g => g.session.is_active
  | none => false

/-- Global state of the recording subsystem: the registry, the status
broadcasts and log records emitted so far, the set of live recording
workers, the shared vehicle snapshot, and the log files opened so far. -/
structure SysState where
  registry : Registry
  broadcasts : List RecordingSession
  logs : List (Uuid × LogRecord)
  workers : List Uuid
  vehicle_data : Option VehicleData
  opened : List FsPath
  deriving Repr, DecidableEq

/-- Events of the recording subsystem: a StartRecording or StopRecording
command arriving at the manager mailbox, one iteration of a recording
worker loop (guard check, then one recv outcome), a worker failing to
obtain its broadcast subscriber (it exits without touching the registry,
src/device/recording/mod.rs lines 294 to 308), and the vehicle bridge
writing the shared snapshot. -/
inductive SysEvent where
  | startCmd (d : Uuid) (env : StartEnv)
  | stopCmd (closeOk : Bool) (d : Uuid)
  | workerIter (d : Uuid) (ev : RecvEvent)
  | workerSubscribeFail (d : Uuid)
  | bridgeWrite (vehicle : VehicleData)
  deriving Repr, DecidableEq

/-- One step of the recording subsystem. A worker iteration first reads
the is_active guard: when it is false the worker removes the entry and
exits (line 375); otherwise a received frame is processed into log
records, while a recv error makes the worker break out of the loop,
remove the entry, and exit (lines 368 to 375). -/
def step (base : FsPath) (s : SysState) (e : SysEvent) : SysState :=
  match e with
  | .startCmd d env =>
      let o := start_recording base env s.registry d
      { s with
          registry := o.registry
          broadcasts := s.broadcasts ++ o.broadcasts
          opened := s.opened ++ o.opened
          workers := if o.spawned then d :: s.workers else s.workers }
  | .stopCmd closeOk d =>
      let o := stop_recording closeOk s.registry d
      { s with
          registry := o.registry
          broadcasts := s.broadcasts ++ o.broadcasts }
  | .workerIter d ev =>
      if d ∈ s.workers then
        if isActiveIn s.registry d then
          match ev with
          | .okFrame msg t =>
              { s with
                  logs := s.logs ++
                    (processFrame s.vehicle_data msg t).map (fun r => (d, r)) }
          | .lagged _ =>
              { s with
                  registry := rremove s.registry d
                  workers := s.workers.filter (fun w => decide (w ≠ d)) }
          | .closed =>
              { s with
                  registry := rremove s.registry d
                  workers := s.workers.filter (fun w => decide (w ≠ d)) }
        else
          { s with
              registry := rremove s.registry d
              workers := s.workers.filter (fun w => decide (w ≠ d)) }
      else s
  | .workerSubscribeFail d =>
      if d ∈ s.workers then
        { s with workers := s.workers.filter (fun w => decide (w ≠ d)) }
      else s
  | .bridgeWrite vehicle =>
      { s with vehicle_data := some vehicle }

/-- Running the recording subsystem over a sequence of events. -/
def run (base : FsPath) (s : SysState) (evs : List SysEvent) : SysState :=
  evs.foldl (step base) s

/-- Initial state: empty registry, nothing broadcast, logged or opened, no
workers, empty vehicle snapshot. -/
def initState : SysState :=
  { registry := [], broadcasts := [], logs := [], workers := []
    vehicle_data := none, opened := [] }

/-- The mailbox response a command event produces in a given state. -/
def stepResult (base : FsPath) (s : SysState) (e : SysEvent) :
    Option (Except ManagerError RecordingSession) :=
  match e with
  | .startCmd d env => some (start_recording base env s.registry d).result
  | .stopCmd closeOk d => some (stop_recording closeOk s.registry d).result
  | _ => none

/-- Attitude fields the bridge reads from a MAVLink ATTITUDE message
(f32 radians, modelled as rationals; unused fields omitted). -/
structure AttitudeData where
  roll : Rat
  pitch : Rat
  yaw : Rat
  deriving Repr, DecidableEq

/-- Position fields the bridge reads from a MAVLink GLOBAL_POSITION_INT
message: raw i32 values (degE7 latitude and longitude, millimetre
altitude; unused fields omitted). -/
structure PositionData where
  lat : Int
  lon : Int
  alt : Int
  deriving Repr, DecidableEq

/-- One sample delivered to the bridge inner loop: an attitude or position
envelope, carrying none when the JSON5 payload fails to decode (the
sample is then ignored). -/
inductive BridgeEvent where
  | attitude (sample : Option AttitudeData)
  | position (sample : Option PositionData)
  deriving Repr, DecidableEq

/-- State of the bridge inner loop (src/vehicle/mod.rs lines 92 to 137):
the latest decoded attitude and position, and the shared snapshot cell. -/
structure BridgeState where
  latest_attitude : Option AttitudeData
  latest_position : Option PositionData
  snapshot : Option VehicleData
  deriving Repr, DecidableEq

/-- The VehicleData record computed when both message kinds are populated
(src/vehicle/mod.rs lines 125 to 133): angles copied, altitude divided by
1000 (millimetres to metres), latitude and longitude divided by 1e7. -/
def fuse (att : AttitudeData) (pos : PositionData) : VehicleData :=
  { roll := att.roll
    pitch := att.pitch
    yaw := att.yaw
    alt := (pos.alt : Rat) / 1000
    lat := (pos.lat : Rat) / 10000000
    lon := (pos.lon : Rat) / 10000000 }

/-- Storing one received sample in the matching latest cell; a sample
whose payload failed to decode leaves the state unchanged. -/
def applySample (s : BridgeState) (e : BridgeEvent) : BridgeState :=
  match e with
  | .attitude (some a) => { s with latest_attitude := some a }
  | .attitude none => s
  | .position (some p) => { s with latest_position := some p }
  | .position none => s

/-- The fusion check run after every received sample: whenever both latest
cells are populated, write the fused record into the shared snapshot
(overwriting any prior value). -/
def updateSnapshot (s : BridgeState) : BridgeState :=
  match s.latest_attitude, s.latest_position with
  | some att, some pos => { s with snapshot := some (fuse att pos) }
  | _, _ => s

/-- One iteration of the bridge inner loop: store the decoded sample, then
run the fusion check. -/
def bridgeStep (s : BridgeState) (e : BridgeEvent) : BridgeState :=
  updateSnapshot (applySample s e)

/-- Running the bridge inner loop over a sequence of samples. -/
def bridgeRun (s : BridgeState) (evs : List BridgeEvent) : BridgeState :=
  evs.foldl bridgeStep s

/-- Latest decoded attitude in a sample sequence, on top of a prior one. -/
def lastAttitudeFrom (att : Option AttitudeData) (evs : List BridgeEvent) :
    Option AttitudeData :=
  evs.foldl
    (fun acc e =>
      match e with
      | .attitude (some a) => some a
      | _ => acc) att

/-- Latest decoded position in a sample sequence, on top of a prior one. -/
def lastPositionFrom (pos : Option PositionData) (evs : List BridgeEvent) :
    Option PositionData :=
  evs.foldl
    (fun acc e =>
      match e with
      | .position (some p) => some p
      | _ => acc) pos

theorem rlookup_rremove (reg : Registry) (d : Uuid) :
    rlookup (rremove reg d) d = none := by
  induction reg with
  | nil => rfl
  | cons p rest ih =>
      by_cases hk : p.1 = d
      · simpa [rremove, List.filter, hk] using ih
      · simpa [rremove, List.filter, hk, rlookup] using ih

theorem rlookup_rinsert (reg : Registry) (d : Uuid) (g : SessionGuard) :
    rlookup (rinsert reg d g) d = some g := by
  simp [rinsert, rlookup]

theorem rlookup_rupdate_self (reg : Registry) (d : Uuid) (g1 g0 : SessionGuard)
    (h : rlookup reg d = some g0) :
    rlookup (rupdate reg d g1) d = some g1 := by
  induction reg with
  | nil => simp [rlookup] at h
  | cons p rest ih =>
      obtain ⟨k, gk⟩ := p
      by_cases hk : k = d
      · subst hk
        simp only [rupdate, if_pos rfl]
        simp [rlookup]
      · simp only [rlookup, hk, if_false] at h
        simp only [rupdate, if_neg hk]
        simp [rlookup, hk, ih h]

/-- After any stop_recording call the entry for the device, if still
present, reads as inactive. -/
theorem isActiveIn_after_stop (closeOk : Bool) (reg : Registry) (d : Uuid) :
    isActiveIn (stop_recording closeOk reg d).registry d = false := by
  unfold stop_recording
  cases hl : rlookup reg d with
  | none => simp [isActiveIn, hl]
  | some g =>
      have hupd :=
        rlookup_rupdate_self reg d
          { session := { g.session with is_active := false }, writer := none } g hl
      cases hw : g.writer with
      | none => simp [hw, isActiveIn, hupd]
      | some w => cases closeOk <;> simp [hw, isActiveIn, hupd]

/-- Concrete device id used by the witnesses. -/
def cUuid : Uuid :=
  ⟨[18, 52, 86, 120, 154, 188, 222, 240, 18, 52, 86, 120, 154, 188, 222, 240]⟩

/-- Concrete start time used by the witnesses. -/
def cTime : UtcTime := ⟨2024, 1, 2, 3, 4, 5⟩

/-- Concrete base recording directory used by the witnesses. -/
def cBase : FsPath := [str "home", str "recordings"]

/-- Start environment in which every fallible step succeeds. -/
def cEnvOk : StartEnv :=
  { createDirOk := true, now := cTime, infoResult := .ok .ping360
    mcapOpenOk := true, handlerResult := .ok () }

/-- Start environment in which opening the MCAP writer fails. -/
def cEnvNoMcap : StartEnv :=
  { createDirOk := true, now := cTime, infoResult := .ok .ping360
    mcapOpenOk := false, handlerResult := .ok () }

/-- Start environment in which the GetDeviceHandler request fails after
every earlier step succeeded. -/
def cEnvOrphan : StartEnv :=
  { createDirOk := true, now := cTime, infoResult := .ok .ping360
    mcapOpenOk := true, handlerResult := .err }

/-- Concrete vehicle snapshot used by the witnesses. -/
def cVehicle : VehicleData :=
  { roll := 1 / 10, pitch := 2 / 10, yaw := 3 / 10
    alt := 125, lat := 474608 / 10000, lon := 85037 / 10000 }

/-- Concrete registry entry used by the witnesses. -/
def cGuard : SessionGuard :=
  { session := startSession cBase cUuid cTime .ping360, writer := some () }

/-- C5: for every Ping360 DeviceData (single-step) frame the recording
worker logs a synthesized AutoDeviceData record that preserves data,
number_of_samples and angle exactly (along with mode, gain_setting,
transmit_duration, sample_period, transmit_frequency), sets the
scan-range fields start_angle to 0, stop_angle to 399, num_steps to 1,
delay to 0, and sets data_length equal to number_of_samples. -/
theorem C5_deviceData_synthesis (vd : Option VehicleData)
    (answer : DeviceDataStruct) (t : Nat) :
    (processFrame vd (.ping360DeviceData answer) t).head? =
        some (.ping360Record (synthAutoDeviceData answer) t)
    ∧ (synthAutoDeviceData answer).data = answer.data
    ∧ (synthAutoDeviceData answer).number_of_samples = answer.number_of_samples
    ∧ (synthAutoDeviceData answer).angle = answer.angle
    ∧ (synthAutoDeviceData answer).mode = answer.mode
    ∧ (synthAutoDeviceData answer).gain_setting = answer.gain_setting
    ∧ (synthAutoDeviceData answer).transmit_duration = answer.transmit_duration
    ∧ (synthAutoDeviceData answer).sample_period = answer.sample_period
    ∧ (synthAutoDeviceData answer).transmit_frequency = answer.transmit_frequency
    ∧ (synthAutoDeviceData answer).start_angle = 0
    ∧ (synthAutoDeviceData answer).stop_angle = 399
    ∧ (synthAutoDeviceData answer).num_steps = 1
    ∧ (synthAutoDeviceData answer).delay = 0
    ∧ (synthAutoDeviceData answer).data_length = answer.number_of_samples := by
  refine ⟨?_, rfl, rfl, rfl, rfl, rfl, rfl, rfl, rfl, rfl, rfl, rfl, rfl, rfl⟩
  cases vd <;> rfl

/-- C2 counterexample: a frame of an unhandled kind received while the
vehicle snapshot is populated does produce a log record (on the
VehicleData channel), so such frames are not ignored on every channel. -/
theorem C2_counterexample :
    processFrame (some cVehicle) ParsedFrame.otherFrame 42 =
        [LogRecord.vehicleRecord cVehicle 42]
    ∧ processFrame (some cVehicle) ParsedFrame.otherFrame 42 ≠ [] := by
  exact ⟨rfl, by decide⟩

/-- C2 (amended): frames other than Ping360 AutoDeviceData, Ping360
DeviceData and Ping1D Profile produce no sonar log record; every record
written for a received frame carries the single timestamp taken at
receipt; and whenever the shared vehicle snapshot is populated it is
logged to the VehicleData channel for every received frame, sonar or not,
with that same timestamp; an empty snapshot is never logged. -/
theorem C2_worker_logging (vd : Option VehicleData) (v : VehicleData)
    (msg : ParsedFrame) (t : Nat) :
    (processFrame vd .otherFrame t).filter isSonarRecord = []
    ∧ (processFrame vd msg t).all (fun r => recordTime r == t) = true
    ∧ LogRecord.vehicleRecord v t ∈ processFrame (some v) msg t
    ∧ (processFrame none msg t).filter (fun r => !isSonarRecord r) = [] := by
  refine ⟨?_, ?_, ?_, ?_⟩ <;> cases msg <;> cases vd <;>
    simp [processFrame, isSonarRecord, recordTime]

/-- C6: when opening the buffered MCAP writer fails, start_recording
returns an error and leaves everything untouched: same registry, no status
broadcast, no file opened, no worker spawned. -/
theorem C6_mcap_open_failure (base : FsPath) (env : StartEnv) (reg : Registry)
    (d : Uuid) (h : env.mcapOpenOk = false) :
    isOkResult (start_recording base env reg d).result = false
    ∧ (start_recording base env reg d).registry = reg
    ∧ (start_recording base env reg d).broadcasts = []
    ∧ (start_recording base env reg d).opened = []
    ∧ (start_recording base env reg d).spawned = false := by
  unfold start_recording
  split
  · simp [isOkResult]
  · split
    · simp [isOkResult]
    · cases h2 : env.infoResult <;> simp [isOkResult, h, h2]

/-- C6 witness at concrete inputs. -/
theorem C6_witness :
    cEnvNoMcap.mcapOpenOk = false
    ∧ (isOkResult (start_recording cBase cEnvNoMcap [] cUuid).result = false
        ∧ (start_recording cBase cEnvNoMcap [] cUuid).registry = []
        ∧ (start_recording cBase cEnvNoMcap [] cUuid).broadcasts = []
        ∧ (start_recording cBase cEnvNoMcap [] cUuid).opened = []
        ∧ (start_recording cBase cEnvNoMcap [] cUuid).spawned = false) :=
  ⟨rfl, C6_mcap_open_failure cBase cEnvNoMcap [] cUuid rfl⟩

/-- C9: start_recording for a device that already has a registry entry
returns the already-recording error and changes nothing: same registry, no
status broadcast, no file opened, no worker spawned. -/
theorem C9_start_busy (base : FsPath) (env : StartEnv) (reg : Registry)
    (d : Uuid) (g : SessionGuard) (h : rlookup reg d = some g) :
    (start_recording base env reg d).result =
        .error (.other (.alreadyRecording d))
    ∧ (start_recording base env reg d).registry = reg
    ∧ (start_recording base env reg d).broadcasts = []
    ∧ (start_recording base env reg d).opened = []
    ∧ (start_recording base env reg d).spawned = false := by
  unfold start_recording
  simp [h]

/-- C9 witness at concrete inputs. -/
theorem C9_witness :
    rlookup [(cUuid, cGuard)] cUuid = some cGuard
    ∧ ((start_recording cBase cEnvOk [(cUuid, cGuard)] cUuid).result =
          .error (.other (.alreadyRecording cUuid))
        ∧ (start_recording cBase cEnvOk [(cUuid, cGuard)] cUuid).registry =
            [(cUuid, cGuard)]
        ∧ (start_recording cBase cEnvOk [(cUuid, cGuard)] cUuid).broadcasts = []
        ∧ (start_recording cBase cEnvOk [(cUuid, cGuard)] cUuid).opened = []
        ∧ (start_recording cBase cEnvOk [(cUuid, cGuard)] cUuid).spawned = false) :=
  ⟨by decide, C9_start_busy cBase cEnvOk [(cUuid, cGuard)] cUuid cGuard (by decide)⟩

/-- C7: when the GetDeviceHandler request fails after the session has been
inserted, start_recording returns an error while the registry keeps the
session with active set and an open writer, the start status has already
been broadcast, and no worker is spawned; an explicit stop_recording on
that registry succeeds and ends the orphaned session. -/
theorem C7_orphan_session (base : FsPath) (env : StartEnv) (reg : Registry)
    (d : Uuid) (dt : DeviceSelection)
    (h1 : rlookup reg d = none) (h2 : env.createDirOk = true)
    (h3 : env.infoResult = .ok dt) (h4 : env.mcapOpenOk = true)
    (h5 : env.handlerResult = .err) :
    (start_recording base env reg d).result = .error .upstream
    ∧ (start_recording base env reg d).registry =
        rinsert reg d { session := startSession base d env.now dt, writer := some () }
    ∧ (startSession base d env.now dt).is_active = true
    ∧ (start_recording base env reg d).broadcasts = [startSession base d env.now dt]
    ∧ (start_recording base env reg d).spawned = false
    ∧ (stop_recording true (start_recording base env reg d).registry d).result =
        .ok { startSession base d env.now dt with is_active := false } := by
  have hstart :
      start_recording base env reg d =
        { registry :=
            rinsert reg d { session := startSession base d env.now dt, writer := some () }
          broadcasts := [startSession base d env.now dt]
          opened := [joinPath base (logFileName d env.now)]
          spawned := false
          result := .error .upstream } := by
    unfold start_recording
    simp [h1, h2, h3, h4, h5]
  rw [hstart]
  refine ⟨rfl, rfl, rfl, rfl, rfl, ?_⟩
  unfold stop_recording
  rw [rlookup_rinsert]
  rfl

/-- C7 witness at concrete inputs. -/
theorem C7_witness :
    (rlookup [] cUuid = none ∧ cEnvOrphan.createDirOk = true
      ∧ cEnvOrphan.infoResult = .ok .ping360 ∧ cEnvOrphan.mcapOpenOk = true
      ∧ cEnvOrphan.handlerResult = .err)
    ∧ ((start_recording cBase cEnvOrphan [] cUuid).result = .error .upstream
        ∧ (start_recording cBase cEnvOrphan [] cUuid).registry =
            rinsert [] cUuid
              { session := startSession cBase cUuid cEnvOrphan.now .ping360
                writer := some () }
        ∧ (startSession cBase cUuid cEnvOrphan.now .ping360).is_active = true
        ∧ (start_recording cBase cEnvOrphan [] cUuid).broadcasts =
            [startSession cBase cUuid cEnvOrphan.now .ping360]
        ∧ (start_recording cBase cEnvOrphan [] cUuid).spawned = false
        ∧ (stop_recording true (start_recording cBase cEnvOrphan [] cUuid).registry
              cUuid).result =
            .ok { startSession cBase cUuid cEnvOrphan.now .ping360 with
                    is_active := false }) :=
  ⟨⟨rfl, rfl, rfl, rfl, rfl⟩,
    C7_orphan_session cBase cEnvOrphan [] cUuid .ping360 rfl rfl rfl rfl rfl⟩

/-- A worker iteration whose is_active guard reads false removes the
registry entry and ends the worker, whatever recv would have produced. -/
theorem step_workerIter_inactive (base : FsPath) (s : SysState) (d : Uuid)
    (ev : RecvEvent) (hmem : d ∈ s.workers)
    (hact : isActiveIn s.registry d = false) :
    step base s (.workerIter d ev) =
      { s with
          registry := rremove s.registry d
          workers := s.workers.filter (fun w => decide (w ≠ d)) } := by
  simp only [step]
  rw [if_pos hmem, hact]
  simp

/-- A worker iteration that receives the lagged overflow report while the
session is still active also removes the registry entry and ends the
worker, writing nothing. -/
theorem step_workerIter_lagged (base : FsPath) (s : SysState) (d : Uuid)
    (n : Nat) (hmem : d ∈ s.workers)
    (hact : isActiveIn s.registry d = true) :
    step base s (.workerIter d (.lagged n)) =
      { s with
          registry := rremove s.registry d
          workers := s.workers.filter (fun w => decide (w ≠ d)) } := by
  simp only [step]
  rw [if_pos hmem, hact]
  simp

theorem not_mem_filter_ne (l : List Uuid) (d : Uuid) :
    d ∉ l.filter (fun w => decide (w ≠ d)) := by
  simp [List.mem_filter]

/-- C1 (amended): StopRecording for a device with no registry entry fails
with the no-recording-session error; and after any StopRecording command,
one further worker loop iteration observes the inactive flag and removes
the entry, after which a second StopRecording fails with the same error.
A second StopRecording issued before that worker iteration is not covered:
it succeeds again (see the counterexample). -/
theorem C1_stop_semantics (base : FsPath) (s : SysState) (d : Uuid)
    (c1 c2 c3 : Bool) (ev : RecvEvent) (h : d ∈ s.workers) :
    (stop_recording c1 (rremove s.registry d) d).result =
        .error (.other (.noRecordingSession d))
    ∧ stepResult base
        (step base (step base s (.stopCmd c2 d)) (.workerIter d ev))
        (.stopCmd c3 d) =
        some (.error (.other (.noRecordingSession d))) := by
  constructor
  · simp [stop_recording, rlookup_rremove]
  · have hmem : d ∈ (step base s (.stopCmd c2 d)).workers := h
    have hact : isActiveIn (step base s (.stopCmd c2 d)).registry d = false :=
      isActiveIn_after_stop c2 s.registry d
    rw [step_workerIter_inactive base _ d ev hmem hact]
    simp [stepResult, stop_recording, rlookup_rremove]

/-- State reached by a successful StartRecording from the initial state. -/
def cStarted : SysState :=
  run cBase initState [.startCmd cUuid cEnvOk]

/-- C1 counterexample: start a recording, stop it successfully, and issue
a second StopRecording before the worker has run again: the second call
also succeeds (the entry is still in the registry, merely inactive), so
the second call is not an error as claimed. -/
theorem C1_counterexample :
    (stepResult cBase (run cBase initState [.startCmd cUuid cEnvOk])
        (.stopCmd true cUuid)).map isOkResult = some true
    ∧ (stepResult cBase
        (run cBase initState [.startCmd cUuid cEnvOk, .stopCmd true cUuid])
        (.stopCmd true cUuid)).map isOkResult = some true := by
  constructor
  · decide
  · decide

/-- C1 witness at concrete inputs. -/
theorem C1_witness :
    cUuid ∈ cStarted.workers
    ∧ ((stop_recording true (rremove cStarted.registry cUuid) cUuid).result =
          .error (.other (.noRecordingSession cUuid))
        ∧ stepResult cBase
            (step cBase (step cBase cStarted (.stopCmd true cUuid))
              (.workerIter cUuid (.lagged 1)))
            (.stopCmd true cUuid) =
            some (.error (.other (.noRecordingSession cUuid)))) :=
  ⟨by decide,
    C1_stop_semantics cBase cStarted cUuid true true true (.lagged 1) (by decide)⟩

/-- C3 (amended): when the broadcast subscriber of an active recording
worker reports the lagged overflow error, the worker does not continue:
it logs nothing for the report, breaks out of its loop, removes the
session entry from the registry, and exits, so a subsequent frame is no
longer received or logged. (The drop-oldest behaviour of the broadcast
channel itself and the non-blocking send of the device session are
properties of the external channel, outside this model.) -/
theorem C3_overflow_terminates (base : FsPath) (s : SysState) (d : Uuid)
    (n : Nat) (msg : ParsedFrame) (t : Nat)
    (h1 : d ∈ s.workers) (h2 : isActiveIn s.registry d = true) :
    (step base s (.workerIter d (.lagged n))).logs = s.logs
    ∧ rlookup (step base s (.workerIter d (.lagged n))).registry d = none
    ∧ d ∉ (step base s (.workerIter d (.lagged n))).workers
    ∧ step base (step base s (.workerIter d (.lagged n)))
        (.workerIter d (.okFrame msg t)) =
        step base s (.workerIter d (.lagged n)) := by
  rw [step_workerIter_lagged base s d n h1 h2]
  refine ⟨rfl, rlookup_rremove _ _, not_mem_filter_ne _ _, ?_⟩
  simp only [step]
  rw [if_neg (not_mem_filter_ne s.workers d)]

/-- C3 counterexample: start a recording and let the worker receive the
lagged overflow report: the session entry is removed, the worker is gone,
and a subsequent frame is not logged, contradicting a recording that
continues best-effort and never terminates on overflow. -/
theorem C3_counterexample :
    rlookup (run cBase initState
        [.startCmd cUuid cEnvOk, .workerIter cUuid (.lagged 5)]).registry cUuid
      = none
    ∧ (run cBase initState
        [.startCmd cUuid cEnvOk, .workerIter cUuid (.lagged 5),
          .workerIter cUuid (.okFrame (.ping1dProfile ⟨[7]⟩) 99)]).logs = []
    ∧ cUuid ∉ (run cBase initState
        [.startCmd cUuid cEnvOk, .workerIter cUuid (.lagged 5)]).workers := by
  refine ⟨by decide, by decide, by decide⟩

/-- C3 witness at concrete inputs. -/
theorem C3_witness :
    (cUuid ∈ cStarted.workers ∧ isActiveIn cStarted.registry cUuid = true)
    ∧ ((step cBase cStarted (.workerIter cUuid (.lagged 5))).logs = cStarted.logs
        ∧ rlookup (step cBase cStarted
            (.workerIter cUuid (.lagged 5))).registry cUuid = none
        ∧ cUuid ∉ (step cBase cStarted (.workerIter cUuid (.lagged 5))).workers
        ∧ step cBase (step cBase cStarted (.workerIter cUuid (.lagged 5)))
            (.workerIter cUuid (.okFrame (.ping1dProfile ⟨[7]⟩) 99)) =
            step cBase cStarted (.workerIter cUuid (.lagged 5))) :=
  ⟨⟨by decide, by decide⟩,
    C3_overflow_terminates cBase cStarted cUuid 5 (.ping1dProfile ⟨[7]⟩) 99
      (by decide) (by decide)⟩

/-- The registry invariant of C4: every entry has its active flag equal to
the presence of its writer handle. -/
def guardInvariant (reg : Registry) : Bool :=
  reg.all (fun p => p.2.session.is_active == p.2.writer.isSome)

theorem guardInvariant_iff (reg : Registry) :
    guardInvariant reg = true ↔
      ∀ p ∈ reg, p.2.session.is_active = p.2.writer.isSome := by
  simp [guardInvariant, List.all_eq_true]

theorem guardInvariant_rremove (reg : Registry) (d : Uuid)
    (h : guardInvariant reg = true) :
    guardInvariant (rremove reg d) = true := by
  rw [guardInvariant_iff] at *
  intro p hp
  exact h p (List.mem_of_mem_filter hp)

theorem guardInvariant_rinsert (reg : Registry) (d : Uuid) (g : SessionGuard)
    (h : guardInvariant reg = true)
    (hg : g.session.is_active = g.writer.isSome) :
    guardInvariant (rinsert reg d g) = true := by
  rw [guardInvariant_iff] at *
  intro p hp
  rcases List.mem_cons.mp hp with hp | hp
  · rw [hp]; exact hg
  · exact h p (List.mem_of_mem_filter hp)

theorem guardInvariant_rupdate (reg : Registry) (d : Uuid) (g : SessionGuard)
    (h : guardInvariant reg = true)
    (hg : g.session.is_active = g.writer.isSome) :
    guardInvariant (rupdate reg d g) = true := by
  induction reg with
  | nil => rfl
  | cons p rest ih =>
      obtain ⟨k, gk⟩ := p
      rw [guardInvariant_iff] at h
      have hhead : gk.session.is_active = gk.writer.isSome :=
        h (k, gk) (List.mem_cons_self _ _)
      have htail : guardInvariant rest = true := by
        rw [guardInvariant_iff]
        intro q hq
        exact h q (List.mem_cons_of_mem _ hq)
      have hrest := ih htail
      rw [guardInvariant_iff]
      intro q hq
      simp only [rupdate] at hq
      rcases List.mem_cons.mp hq with hq | hq
      · by_cases hk : k = d
        · rw [hq, if_pos hk]; exact hg
        · rw [hq, if_neg hk]; exact hhead
      · exact (guardInvariant_iff _).mp hrest q hq

/-- The registry start_recording leaves behind is either unchanged or has
the new entry inserted with the active flag set and a writer present. -/
theorem start_registry_cases (base : FsPath) (env : StartEnv) (reg : Registry)
    (d : Uuid) :
    (start_recording base env reg d).registry = reg
    ∨ ∃ dt, (start_recording base env reg d).registry =
        rinsert reg d { session := startSession base d env.now dt
                        writer := some () } := by
  unfold start_recording
  split
  · exact .inl rfl
  · split
    · exact .inl rfl
    · rcases hinfo : env.infoResult with _ | _ | dt <;> simp only [hinfo]
      · exact .inl trivial
      · exact .inl trivial
      · split
        · exact .inl rfl
        · rcases hh : env.handlerResult with _ | _ | u <;> simp only [hh]
          · exact .inr ⟨dt, rfl⟩
          · exact .inr ⟨dt, rfl⟩
          · exact .inr ⟨dt, rfl⟩

/-- The registry stop_recording leaves behind is either unchanged or has
the entry overwritten with the active flag cleared and the writer taken. -/
theorem stop_registry_cases (closeOk : Bool) (reg : Registry) (d : Uuid) :
    (stop_recording closeOk reg d).registry = reg
    ∨ ∃ sess : RecordingSession, sess.is_active = false
        ∧ (stop_recording closeOk reg d).registry =
            rupdate reg d { session := sess, writer := none } := by
  cases hl : rlookup reg d with
  | none =>
      left
      simp [stop_recording, hl]
  | some g =>
      cases hw : g.writer with
      | none =>
          refine .inr ⟨{ g.session with is_active := false }, rfl, ?_⟩
          simp [stop_recording, hl, hw]
      | some w =>
          cases closeOk
          · refine .inr ⟨{ g.session with is_active := false }, rfl, ?_⟩
            simp [stop_recording, hl, hw]
          · refine .inr ⟨{ g.session with is_active := false }, rfl, ?_⟩
            simp [stop_recording, hl, hw]

/-- One system step preserves the registry invariant. -/
theorem step_preserves_guardInvariant (base : FsPath) (s : SysState)
    (e : SysEvent) (h : guardInvariant s.registry = true) :
    guardInvariant (step base s e).registry = true := by
  cases e with
  | startCmd d env =>
      rcases start_registry_cases base env s.registry d with hc | ⟨dt, hc⟩
      · simpa only [step, hc] using h
      · simp only [step, hc]
        exact guardInvariant_rinsert _ _ _ h rfl
  | stopCmd closeOk d =>
      rcases stop_registry_cases closeOk s.registry d with hc | ⟨sess, hs, hc⟩
      · simpa only [step, hc] using h
      · simp only [step, hc]
        exact guardInvariant_rupdate _ _ _ h (by rw [hs]; rfl)
  | workerIter d ev =>
      simp only [step]
      split
      · split
        · cases ev with
          | okFrame msg t => exact h
          | lagged n => exact guardInvariant_rremove _ _ h
          | closed => exact guardInvariant_rremove _ _ h
        · exact guardInvariant_rremove _ _ h
      · exact h
  | workerSubscribeFail d =>
      simp only [step]
      split
      · exact h
      · exact h
  | bridgeWrite vehicle => exact h

/-- C4: after every sequence of recording-manager operations, worker
iterations and bridge writes starting from the empty registry, every
registry entry has its active flag true exactly when its log-writer
handle is present (StartRecording inserts entries with the flag set and a
writer, StopRecording clears the flag and takes the writer in the same
mutation, and worker exits remove whole entries). -/
theorem C4_active_iff_writer (base : FsPath) (evs : List SysEvent) :
    guardInvariant (run base initState evs).registry = true := by
  suffices hgen : ∀ (s : SysState), guardInvariant s.registry = true →
      guardInvariant (run base s evs).registry = true from hgen initState rfl
  induction evs with
  | nil => intro s h; exact h
  | cons e rest ih =>
      intro s h
      exact ih (step base s e) (step_preserves_guardInvariant base s e h)

theorem updateSnapshot_latest_attitude (s : BridgeState) :
    (updateSnapshot s).latest_attitude = s.latest_attitude := by
  unfold updateSnapshot
  split <;> rfl

theorem updateSnapshot_latest_position (s : BridgeState) :
    (updateSnapshot s).latest_position = s.latest_position := by
  unfold updateSnapshot
  split <;> rfl

theorem applySample_snapshot (s : BridgeState) (e : BridgeEvent) :
    (applySample s e).snapshot = s.snapshot := by
  rcases e with oa | op
  · cases oa <;> rfl
  · cases op <;> rfl

theorem applySample_latest_attitude (s : BridgeState) (e : BridgeEvent) :
    (applySample s e).latest_attitude =
      (match e with
        | .attitude (some a) => some a
        | _ => s.latest_attitude) := by
  rcases e with oa | op
  · cases oa <;> rfl
  · cases op <;> rfl

theorem applySample_latest_position (s : BridgeState) (e : BridgeEvent) :
    (applySample s e).latest_position =
      (match e with
        | .position (some p) => some p
        | _ => s.latest_position) := by
  rcases e with oa | op
  · cases oa <;> rfl
  · cases op <;> rfl

theorem bridgeRun_latest_attitude (evs : List BridgeEvent) :
    ∀ s : BridgeState,
      (bridgeRun s evs).latest_attitude =
        lastAttitudeFrom s.latest_attitude evs := by
  induction evs with
  | nil => intro s; rfl
  | cons e rest ih =>
      intro s
      show (bridgeRun (bridgeStep s e) rest).latest_attitude = _
      rw [ih (bridgeStep s e)]
      unfold bridgeStep
      rw [updateSnapshot_latest_attitude, applySample_latest_attitude]
      rcases e with oa | op
      · cases oa <;> rfl
      · cases op <;> rfl

theorem bridgeRun_latest_position (evs : List BridgeEvent) :
    ∀ s : BridgeState,
      (bridgeRun s evs).latest_position =
        lastPositionFrom s.latest_position evs := by
  induction evs with
  | nil => intro s; rfl
  | cons e rest ih =>
      intro s
      show (bridgeRun (bridgeStep s e) rest).latest_position = _
      rw [ih (bridgeStep s e)]
      unfold bridgeStep
      rw [updateSnapshot_latest_position, applySample_latest_position]
      rcases e with oa | op
      · cases oa <;> rfl
      · cases op <;> rfl

/-- Snapshot coherence: the snapshot cell holds the fusion of the latest
samples once both kinds have arrived, and its initial content before. -/
def coherent (snap0 : Option VehicleData) (s : BridgeState) : Prop :=
  s.snapshot =
    match s.latest_attitude, s.latest_position with
    | some att, some pos => some (fuse att pos)
    | _, _ => snap0

theorem coherent_bridgeStep (snap0 : Option VehicleData) (s : BridgeState)
    (e : BridgeEvent) (h : coherent snap0 s) :
    coherent snap0 (bridgeStep s e) := by
  unfold bridgeStep coherent
  cases ha : (applySample s e).latest_attitude with
  | some att =>
      cases hp : (applySample s e).latest_position with
      | some pos => simp [updateSnapshot, ha, hp]
      | none =>
          simp only [updateSnapshot, ha, hp]
          rw [applySample_snapshot]
          have hsp : s.latest_position = none := by
            rw [applySample_latest_position] at hp
            rcases e with oa | op
            · cases oa <;> simpa using hp
            · cases op
              · simpa using hp
              · simp at hp
          unfold coherent at h
          rw [h, hsp]
          cases s.latest_attitude <;> rfl
  | none =>
      cases hp : (applySample s e).latest_position <;>
        · simp only [updateSnapshot, ha, hp]
          rw [applySample_snapshot]
          have hsa : s.latest_attitude = none := by
            rw [applySample_latest_attitude] at ha
            rcases e with oa | op
            · cases oa
              · simpa using ha
              · simp at ha
            · cases op <;> simpa using ha
          unfold coherent at h
          rw [h, hsa]

theorem coherent_bridgeRun (snap0 : Option VehicleData)
    (evs : List BridgeEvent) :
    ∀ s : BridgeState, coherent snap0 s → coherent snap0 (bridgeRun s evs) := by
  induction evs with
  | nil => intro s h; exact h
  | cons e rest ih =>
      intro s h
      exact ih (bridgeStep s e) (coherent_bridgeStep snap0 s e h)

/-- C8: running the bridge inner loop from freshly reset latest cells and
any prior shared-snapshot content, the latest cells track the most recent
decoded attitude and position samples; once at least one of each has
arrived the snapshot holds exactly the fusion of the two latest samples
(angles copied, alt the raw altitude divided by 1000, lat and lon the raw
values divided by 1e7), overwriting any prior value, and until then the
snapshot is never written. -/
theorem C8_vehicle_fusion (evs : List BridgeEvent)
    (snap0 : Option VehicleData) :
    (bridgeRun ⟨none, none, snap0⟩ evs).latest_attitude =
        lastAttitudeFrom none evs
    ∧ (bridgeRun ⟨none, none, snap0⟩ evs).latest_position =
        lastPositionFrom none evs
    ∧ (bridgeRun ⟨none, none, snap0⟩ evs).snapshot =
        (match lastAttitudeFrom none evs, lastPositionFrom none evs with
          | some att, some pos => some (fuse att pos)
          | _, _ => snap0) := by
  have ha := bridgeRun_latest_attitude evs ⟨none, none, snap0⟩
  have hp := bridgeRun_latest_position evs ⟨none, none, snap0⟩
  have hc : coherent snap0 (bridgeRun ⟨none, none, snap0⟩ evs) :=
    coherent_bridgeRun snap0 evs ⟨none, none, snap0⟩ rfl
  unfold coherent at hc
  rw [ha, hp] at hc
  exact ⟨ha, hp, hc⟩

theorem isPrefixOf_self_append (l m : FsPath) : l.isPrefixOf (l ++ m) = true := by
  induction l with
  | nil => simp
  | cons c rest ih => simp [List.isPrefixOf, ih]

theorem logFileName_ne_nil (u : Uuid) (t : UtcTime) : logFileName u t ≠ [] := by
  obtain ⟨rest, hr⟩ := logFileName_starts_with_d u t
  rw [hr]
  simp

theorem logFileName_ne_dot (u : Uuid) (t : UtcTime) :
    logFileName u t ≠ str "." := by
  obtain ⟨rest, hr⟩ := logFileName_starts_with_d u t
  rw [hr]
  simp [str, show ('d' : Char) ≠ '.' from by decide]

theorem logFileName_ne_dotdot (u : Uuid) (t : UtcTime) :
    logFileName u t ≠ str ".." := by
  obtain ⟨rest, hr⟩ := logFileName_starts_with_d u t
  rw [hr]
  simp [str, show ('d' : Char) ≠ '.' from by decide]

theorem logFileName_not_absolute (u : Uuid) (t : UtcTime) :
    isAbsolutePath (logFileName u t) = false := by
  obtain ⟨rest, hr⟩ := logFileName_starts_with_d u t
  rw [hr]
  rfl

/-- The recording file path the manager composes: the base directory with
the single filename component appended. -/
theorem joinPath_logFileName (base : FsPath) (u : Uuid) (t : UtcTime) :
    joinPath base (logFileName u t) = base ++ [logFileName u t] := by
  unfold joinPath
  rw [logFileName_not_absolute,
    splitPath_single _ (logFileName_no_slash u t) (logFileName_ne_nil u t)]
  simp

/-- The canonical form of every composed log path lies under the
canonical base directory. -/
theorem normalize_logPath_prefix (base : FsPath) (u : Uuid) (t : UtcTime) :
    (normalize base).isPrefixOf
      (normalize (joinPath base (logFileName u t))) = true := by
  rw [joinPath_logFileName base u t,
    normalize_append_single base (logFileName u t)
      (logFileName_ne_dot u t) (logFileName_ne_dotdot u t)]
  exact isPrefixOf_self_append _ _

/-- The files start_recording opens: none, or exactly the composed log
path under the base directory. -/
theorem start_opened_cases (base : FsPath) (env : StartEnv) (reg : Registry)
    (d : Uuid) :
    (start_recording base env reg d).opened = []
    ∨ (start_recording base env reg d).opened =
        [joinPath base (logFileName d env.now)] := by
  unfold start_recording
  split
  · exact .inl rfl
  · split
    · exact .inl rfl
    · rcases hinfo : env.infoResult with _ | _ | dt <;> simp only [hinfo]
      · exact .inl trivial
      · exact .inl trivial
      · split
        · exact .inl rfl
        · rcases hh : env.handlerResult with _ | _ | u <;> simp only [hh]
          · exact .inr trivial
          · exact .inr trivial
          · exact .inr trivial

/-- C10: a download or delete request whose canonicalized target does not
lie under the canonical recordings base directory is refused by
secure_file_path with the Forbidden response, and neither endpoint reads
or deletes any file; and every log path start_recording opens is the base
directory joined with the single slash-free component
device_{uuid}_{timestamp}.mcap, whose canonical form lies under the
canonical base directory. -/
theorem C10_path_confinement (base : FsPath) (file_name : List Char)
    (env : StartEnv) (reg : Registry) (u : Uuid) (t : UtcTime)
    (h : (normalize base).isPrefixOf
        (normalize (joinPath base file_name)) = false) :
    secure_file_path base file_name = .error .forbidden
    ∧ download_mcap_file base file_name = none
    ∧ delete_mcap_file base file_name = none
    ∧ (normalize base).isPrefixOf
        (normalize (joinPath base (logFileName u t))) = true
    ∧ (start_recording base env reg u).opened.all
        (fun p => (normalize base).isPrefixOf (normalize p)) = true := by
  have h1 : secure_file_path base file_name = .error .forbidden := by
    simp [secure_file_path, h]
  refine ⟨h1, ?_, ?_, normalize_logPath_prefix base u t, ?_⟩
  · simp [download_mcap_file, h1]
  · simp [delete_mcap_file, h1]
  · rcases start_opened_cases base env reg u with ho | ho <;> rw [ho]
    · rfl
    · simp only [List.all_cons, List.all_nil,
        normalize_logPath_prefix base u env.now, Bool.and_self]

/-- C10 witness at concrete inputs: the traversal name ../escape is
refused, and the composed log path stays under the base directory. -/
theorem C10_witness :
    (normalize cBase).isPrefixOf
        (normalize (joinPath cBase (str "../escape"))) = false
    ∧ (secure_file_path cBase (str "../escape") = .error .forbidden
        ∧ download_mcap_file cBase (str "../escape") = none
        ∧ delete_mcap_file cBase (str "../escape") = none
        ∧ (normalize cBase).isPrefixOf
            (normalize (joinPath cBase (logFileName cUuid cTime))) = true
        ∧ (start_recording cBase cEnvOk [] cUuid).opened.all
            (fun p => (normalize cBase).isPrefixOf (normalize p)) = true) :=
  ⟨by decide,
    C10_path_confinement cBase (str "../escape") cEnvOk [] cUuid cTime (by decide)⟩

end PingViewerNext
